import Mathlib

/-!
Verification of the score algebra of the `abstract-game` repository.

The Rust type `Score` (src/score.rs) packs partial minimax knowledge into one
`u32`: bits 0-10 hold `turn_count_tie`, bits 11-21 hold the win field (stored
as `turn_count_win - 1` for decided scores, with all-ones as the tie-only
sentinel), bits 22-30 are unused, bit 31 is the `cur_player_wins` flag.
We embed the packed representation and every operation on it faithfully,
using `Nat` with explicit `% 2^32` where the Rust code relies on wrapping
arithmetic.
-/

namespace AbstractGame

/-- Embedding of the Rust enum `ScoreValue` (src/score.rs). -/
inductive ScoreValue where
  | CurrentPlayerWins
  | OtherPlayerWins
  | Tie
  deriving DecidableEq, Repr

/-- Embedding of the Rust struct `Score` (src/score.rs): one packed `u32`. -/
structure Score where
  data : Nat
  deriving DecidableEq, Repr

namespace Score

/-- Modulus of `u32` arithmetic. -/
def U32_MOD : Nat := 2 ^ 32

def TIE_BITS : Nat := 11
def TIE_SHIFT : Nat := 0
def MAX_TIE_DEPTH : Nat := (1 <<< TIE_BITS) - 1
def TIE_MASK : Nat := MAX_TIE_DEPTH <<< TIE_SHIFT

def WIN_BITS : Nat := 11
def WIN_SHIFT : Nat := TIE_SHIFT + TIE_BITS
def MAX_WIN_DEPTH : Nat := (1 <<< WIN_BITS) - 1
def WIN_MASK : Nat := MAX_WIN_DEPTH <<< WIN_SHIFT

def UNUSED_BITS : Nat := 9
def UNUSED_SHIFT : Nat := WIN_SHIFT + WIN_BITS

def CUR_PLAYER_WINS_SHIFT : Nat := UNUSED_SHIFT + UNUSED_BITS
def CUR_PLAYER_WINS_MASK : Nat := 1 <<< CUR_PLAYER_WINS_SHIFT

/-- Embedding of `Score::pack`. -/
def pack (cur_player_wins : Bool) (turn_count_tie turn_count_win : Nat) : Nat :=
  ((cond cur_player_wins 1 0) <<< CUR_PLAYER_WINS_SHIFT)
    + (turn_count_tie <<< TIE_SHIFT)
    + (turn_count_win <<< WIN_SHIFT)

/-- Embedding of `Score::unpack_unshifted`. -/
def unpack_unshifted (data : Nat) : Nat × Nat × Nat :=
  (data &&& CUR_PLAYER_WINS_MASK, data &&& TIE_MASK, data &&& WIN_MASK)

/-- Embedding of `Score::unpack`. -/
def unpack (data : Nat) : Bool × Nat × Nat :=
  (decide ((data &&& CUR_PLAYER_WINS_MASK) ≠ 0),
   (data &&& TIE_MASK) >>> TIE_SHIFT,
   (data &&& WIN_MASK) >>> WIN_SHIFT)

/-- Embedding of `Score::new`: the raw constructor, storing the win field as
`turn_count_win - 1` for decided scores and all-ones for tie-only scores. -/
def new (cur_player_wins : Bool) (turn_count_tie turn_count_win : Nat) : Score :=
  ⟨pack cur_player_wins turn_count_tie
    (if turn_count_win = 0 then MAX_WIN_DEPTH else turn_count_win - 1)⟩

/-- Embedding of `Score::NO_INFO`. -/
def NO_INFO : Score := new false 0 0

/-- Embedding of `Score::ANCESTOR`. -/
def ANCESTOR : Score := ⟨CUR_PLAYER_WINS_MASK⟩

/-- Embedding of `Score::has_no_info`. -/
def has_no_info (s : Score) : Bool := s.data == NO_INFO.data

/-- Embedding of `Score::is_tie`. -/
def is_tie (s : Score) : Bool := (s.data &&& WIN_MASK) == WIN_MASK

/-- Embedding of `Score::is_guaranteed_tie`. -/
def is_guaranteed_tie (s : Score) : Bool := (s.data &&& TIE_MASK) == TIE_MASK

/-- Embedding of `Score::is_ancestor`. -/
def is_ancestor (s : Score) : Bool := s.data == ANCESTOR.data

/-- Embedding of `Score::win`. -/
def win (turn_count_win : Nat) : Score := new true 0 turn_count_win

/-- Embedding of `Score::optimal_win`. -/
def optimal_win (turn_count_win : Nat) : Score :=
  new true (turn_count_win - 1) turn_count_win

/-- Embedding of `Score::lose`. -/
def lose (turn_count_lose : Nat) : Score := new false 0 turn_count_lose

/-- Embedding of `Score::optimal_lose`. -/
def optimal_lose (turn_count_lose : Nat) : Score :=
  new false (turn_count_lose - 1) turn_count_lose

/-- Embedding of `Score::tie`. -/
def tie (turn_count_tie : Nat) : Score := new false turn_count_tie 0

/-- Embedding of `Score::guaranteed_tie`. -/
def guaranteed_tie : Score := tie MAX_TIE_DEPTH

/-- Embedding of `Score::ancestor`. -/
def ancestor : Score := ANCESTOR

/-- Embedding of `Score::cur_player_wins`. -/
def cur_player_wins (s : Score) : Bool := (s.data &&& CUR_PLAYER_WINS_MASK) != 0

/-- Embedding of `Score::turn_count_tie`. -/
def turn_count_tie (s : Score) : Nat := (s.data &&& TIE_MASK) >>> TIE_SHIFT

/-- Embedding of `Score::turn_count_win` (the `+ (1 << WIN_SHIFT)` is a `u32`
addition, hence the explicit modulus). -/
def turn_count_win (s : Score) : Nat :=
  (((s.data + (1 <<< WIN_SHIFT)) % U32_MOD) &&& WIN_MASK) >>> WIN_SHIFT

/-- Embedding of `Score::determined_depth`. -/
def determined_depth (s : Score) : Nat :=
  let u := unpack ((s.data + (1 <<< WIN_SHIFT)) % U32_MOD)
  max u.2.1 u.2.2

/-- Embedding of `Score::score_at_depth`; the `unreachable_unchecked` branch
of the Rust code is modelled as `none`. -/
def score_at_depth (s : Score) (depth : Nat) : Option ScoreValue :=
  if depth ≤ s.turn_count_tie then
    some ScoreValue.Tie
  else if depth ≥ s.turn_count_win then
    some (if s.cur_player_wins then ScoreValue.CurrentPlayerWins
          else ScoreValue.OtherPlayerWins)
  else
    none

/-- Embedding of `Score::backstep` (the Rust code uses `wrapping_add`). -/
def backstep (s : Score) : Score :=
  let to_add :=
    (cond (!s.is_tie) 1 0) * ((1 <<< WIN_SHIFT) ||| CUR_PLAYER_WINS_MASK)
      + (cond (!s.is_guaranteed_tie) 1 0) * (1 <<< TIE_SHIFT)
  ⟨(s.data + to_add) % U32_MOD⟩

/-- Embedding of `Score::forwardstep` (the Rust code uses `wrapping_sub`). -/
def forwardstep (s : Score) : Score :=
  let u := unpack_unshifted s.data
  let tie_bits := u.2.1
  let win_bits := u.2.2
  let swap_player_turn := !s.is_tie
  let deduct_winning_turns := swap_player_turn && (win_bits != 0)
  let deduct_tied_turns := (!s.is_guaranteed_tie) && (tie_bits != 0)
  let to_sub :=
    (cond swap_player_turn 1 0) * CUR_PLAYER_WINS_MASK
      + (cond deduct_winning_turns 1 0) * (1 <<< WIN_SHIFT)
      + (cond deduct_tied_turns 1 0) * (1 <<< TIE_SHIFT)
  ⟨(s.data + (U32_MOD - to_sub % U32_MOD)) % U32_MOD⟩

/-- Embedding of `Score::merge`. -/
def merge (s : Score) (other : Score) : Score :=
  let u1 := unpack_unshifted s.data
  let u2 := unpack_unshifted other.data
  ⟨max u1.2.1 u2.2.1 + min u1.2.2 u2.2.2 + (u1.1 ||| u2.1)⟩

/-- Embedding of `Score::determined`. -/
def determined (s : Score) (search_depth : Nat) : Bool :=
  let u := unpack s.data
  decide (search_depth > u.2.2) || decide (search_depth ≤ u.2.1)

/-- Embedding of `Score::compatible`. -/
def compatible (s : Score) (other : Score) : Bool :=
  let tie_to_win_shift := WIN_SHIFT - TIE_SHIFT
  let u1 := unpack_unshifted s.data
  let u2 := unpack_unshifted other.data
  let agree := s.is_tie || other.is_tie || (u1.1 == u2.1)
  decide (u1.2.2 ≥ u2.2.1 <<< tie_to_win_shift)
    && decide (u2.2.2 ≥ u1.2.1 <<< tie_to_win_shift)
    && agree

/-- Embedding of the closure `transform_data` inside `Score::better`: an
arithmetic right shift of the `u32` value by 20 (sign-extending from bit 31),
masked and xor-ed back in. -/
def transform_data (data : Nat) : Nat :=
  let shifted_bits :=
    if data < 2 ^ 31 then data >>> (CUR_PLAYER_WINS_SHIFT - WIN_SHIFT)
    else (data >>> (CUR_PLAYER_WINS_SHIFT - WIN_SHIFT)) + (U32_MOD - 2 ^ 12)
  let mask := shifted_bits &&& WIN_MASK
  data ^^^ mask

/-- Embedding of `Score::better`. -/
def better (s : Score) (other : Score) : Bool :=
  decide (transform_data s.data > transform_data other.data)

/-- Embedding of `Score::break_early` (`data & !TIE_MASK` on `u32`). -/
def break_early (s : Score) : Score :=
  ⟨s.data &&& (TIE_MASK ^^^ (U32_MOD - 1))⟩

/-- Modelled from the spec: `Score::fully_determined` is called by
`DeterminedScore::from_score` but its definition is not among the provided
sources. Per the spec (§4.6), a score is fully determined when `determined`
holds at every search depth; `determined` can fail only at depths in the gap
just above `turn_count_tie`, so testing depth `turn_count_tie + 1` decides
it (see `fully_determined_iff` below). -/
def fully_determined (s : Score) : Bool := s.determined (s.turn_count_tie + 1)

end Score

/-- Embedding of the Rust struct `DeterminedScore` (src/determined_score.rs). -/
structure DeterminedScore where
  value : ScoreValue
  moves_to_win : Nat
  deriving DecidableEq, Repr

namespace DeterminedScore

/-- Embedding of `DeterminedScore::tie`. -/
def tie (depth : Nat) : DeterminedScore := ⟨ScoreValue.Tie, depth⟩

/-- Embedding of `DeterminedScore::guaranteed_tie`. -/
def guaranteed_tie : DeterminedScore := ⟨ScoreValue.Tie, 0⟩

/-- Embedding of `DeterminedScore::win`. -/
def win (moves_to_win : Nat) : DeterminedScore :=
  ⟨ScoreValue.CurrentPlayerWins, moves_to_win⟩

/-- Embedding of `DeterminedScore::lose`. -/
def lose (moves_to_win : Nat) : DeterminedScore :=
  ⟨ScoreValue.OtherPlayerWins, moves_to_win⟩

/-- Embedding of `DeterminedScore::from_score`; the closure passed to
`Option::then` reads `score_at_depth`, whose undefined-behavior branch is
modelled by `Option.map` over our option-valued `score_at_depth`. -/
def from_score (score : Score) : Option DeterminedScore :=
  if score = Score.NO_INFO then none
  else if score.is_guaranteed_tie then some guaranteed_tie
  else if score.is_tie then some (tie score.determined_depth)
  else if score.fully_determined then
    (score.score_at_depth score.determined_depth).map
      (fun value => ⟨value, score.determined_depth⟩)
  else none

end DeterminedScore

namespace Score

/-- Well-formedness of a packed score value, as guaranteed by the public
constructors: the value fits in 32 bits, the unused bits 22-30 are zero, a
tie-only score (win field all-ones) has the winner flag clear, and for a
decided score the tie field does not reach past the stored win field. -/
def Valid (s : Score) : Prop :=
  s.data < U32_MOD
    ∧ s.data / 2 ^ 22 % 2 ^ 9 = 0
    ∧ (s.data / 2 ^ 11 % 2 ^ 11 = 2047 → s.data / 2 ^ 31 = 0)
    ∧ (s.data / 2 ^ 11 % 2 ^ 11 < 2047 → s.data % 2 ^ 11 ≤ s.data / 2 ^ 11 % 2 ^ 11)

instance (s : Score) : Decidable s.Valid := by
  unfold Valid; infer_instance

/-- Scores reachable from the public constructors (invoked under their
documented preconditions, with the raw constructor additionally restricted
to argument triples that are valid in the sense of spec §8, i.e.
`turn_count_tie < turn_count_win` unless `turn_count_win = 0`) via
`backstep`, `forwardstep`, `merge` and `break_early` under their documented
preconditions. -/
inductive Reachable : Score → Prop where
  | of_new (c : Bool) (t w : Nat) :
      t ≤ MAX_TIE_DEPTH → w < MAX_WIN_DEPTH → (c = true → w ≠ 0) →
      (w ≠ 0 → t < w) → Reachable (new c t w)
  | of_win (n : Nat) : n ≠ 0 → n < MAX_WIN_DEPTH → Reachable (win n)
  | of_optimal_win (n : Nat) : n ≠ 0 → n < MAX_WIN_DEPTH → Reachable (optimal_win n)
  | of_lose (n : Nat) : n ≠ 0 → n < MAX_WIN_DEPTH → Reachable (lose n)
  | of_optimal_lose (n : Nat) : n ≠ 0 → n < MAX_WIN_DEPTH → Reachable (optimal_lose n)
  | of_tie (n : Nat) : n ≤ MAX_TIE_DEPTH → Reachable (tie n)
  | of_guaranteed_tie : Reachable guaranteed_tie
  | of_no_info : Reachable NO_INFO
  | of_backstep (s : Score) : Reachable s →
      (s.is_tie = true ∨ s.turn_count_win < MAX_WIN_DEPTH) → Reachable s.backstep
  | of_forwardstep (s : Score) : Reachable s → Reachable s.forwardstep
  | of_merge (s1 s2 : Score) : Reachable s1 → Reachable s2 →
      s1.compatible s2 = true → Reachable (s1.merge s2)
  | of_break_early (s : Score) : Reachable s → Reachable s.break_early

/-- Combination of two decided depths as the spec describes it for `merge`:
the minimum of the two win depths, with the `0` sentinel (tie-only, no
decided outcome) treated as infinity. -/
def spec_merge_win_depth (w1 w2 : Nat) : Nat :=
  if w1 = 0 then w2 else if w2 = 0 then w1 else min w1 w2

/-- Bitwise and with a contiguous mask of `n` bits starting at bit `k`
extracts the corresponding field. -/
theorem and_mask_eq (d k n : Nat) :
    d &&& ((2 ^ n - 1) * 2 ^ k) = d / 2 ^ k % 2 ^ n * 2 ^ k := by
  apply Nat.eq_of_testBit_eq
  intro i
  rw [show (2 ^ n - 1) * 2 ^ k = (2 ^ n - 1) <<< k by rw [Nat.shiftLeft_eq],
    show d / 2 ^ k % 2 ^ n * 2 ^ k = (d >>> k % 2 ^ n) <<< k by
      rw [Nat.shiftLeft_eq, Nat.shiftRight_eq_div_pow]]
  simp only [Nat.testBit_and, Nat.testBit_shiftLeft, Nat.testBit_mod_two_pow,
    Nat.testBit_shiftRight, Nat.testBit_two_pow_sub_one]
  by_cases hik : k ≤ i
  · have hk : k + (i - k) = i := by omega
    simp only [ge_iff_le, hik, decide_True, hk, Bool.true_and]
    cases d.testBit i <;> cases (decide (i - k < n)) <;> simp
  · simp [hik]

/-- Bitwise xor with a contiguous mask of `n` bits starting at bit `k`
complements the corresponding field and leaves the rest unchanged. -/
theorem xor_mask_eq (d k n : Nat) :
    d ^^^ ((2 ^ n - 1) * 2 ^ k) =
      2 ^ (k + n) * (d / 2 ^ (k + n))
        + (2 ^ k * (2 ^ n - 1 - d / 2 ^ k % 2 ^ n) + d % 2 ^ k) := by
  have hlo : d % 2 ^ k < 2 ^ k := Nat.mod_lt _ (Nat.two_pow_pos k)
  have hmid : d / 2 ^ k % 2 ^ n < 2 ^ n := Nat.mod_lt _ (Nat.two_pow_pos n)
  have hrest : 2 ^ k * (2 ^ n - 1 - d / 2 ^ k % 2 ^ n) + d % 2 ^ k < 2 ^ (k + n) := by
    have h1 : 2 ^ n - 1 - d / 2 ^ k % 2 ^ n ≤ 2 ^ n - 1 := by omega
    have h2 : 2 ^ k * (2 ^ n - 1 - d / 2 ^ k % 2 ^ n) ≤ 2 ^ k * (2 ^ n - 1) :=
      Nat.mul_le_mul_left _ h1
    have h3 : 2 ^ k * (2 ^ n - 1) = 2 ^ k * 2 ^ n - 2 ^ k := by
      rw [Nat.mul_sub_one]
    have h4 : 2 ^ (k + n) = 2 ^ k * 2 ^ n := Nat.pow_add 2 k n
    have h5 : 2 ^ k ≤ 2 ^ k * 2 ^ n :=
      Nat.le_mul_of_pos_right _ (Nat.two_pow_pos n)
    omega
  apply Nat.eq_of_testBit_eq
  intro i
  rw [Nat.testBit_mul_pow_two_add _ hrest]
  rw [show (2 ^ n - 1) * 2 ^ k = (2 ^ n - 1) <<< k by rw [Nat.shiftLeft_eq]]
  simp only [Nat.testBit_xor, Nat.testBit_shiftLeft, Nat.testBit_two_pow_sub_one]
  by_cases hik : i < k
  · rw [if_pos (by omega : i < k + n)]
    rw [Nat.testBit_mul_pow_two_add _ hlo, if_pos hik]
    simp only [Nat.testBit_mod_two_pow, hik, decide_True, Bool.true_and]
    have : ¬ k ≤ i := by omega
    simp [this]
  · by_cases hikn : i < k + n
    · rw [if_pos hikn]
      rw [Nat.testBit_mul_pow_two_add _ hlo, if_neg hik]
      have hsub : 2 ^ n - 1 - d / 2 ^ k % 2 ^ n = 2 ^ n - (d / 2 ^ k % 2 ^ n + 1) := by
        omega
      rw [hsub, Nat.testBit_two_pow_sub_succ hmid]
      have h1 : i - k < n := by omega
      have h2 : k ≤ i := by omega
      simp only [h1, decide_True, Bool.true_and, Nat.testBit_mod_two_pow,
        ge_iff_le, h2]
      rw [show d / 2 ^ k = d >>> k by rw [Nat.shiftRight_eq_div_pow]]
      simp only [Nat.testBit_shiftRight]
      have h3 : k + (i - k) = i := by omega
      rw [h3]
      cases d.testBit i <;> simp
    · rw [if_neg hikn]
      rw [show d / 2 ^ (k + n) = d >>> (k + n) by rw [Nat.shiftRight_eq_div_pow]]
      simp only [Nat.testBit_shiftRight]
      have h3 : k + n + (i - (k + n)) = i := by omega
      rw [h3]
      have : ¬ (i - k < n) := by omega
      simp [this]

theorem U32_MOD_eq : U32_MOD = 4294967296 := rfl

theorem TIE_MASK_eq : TIE_MASK = 2047 := rfl

theorem WIN_MASK_eq : WIN_MASK = 4192256 := rfl

theorem CPW_MASK_eq : CUR_PLAYER_WINS_MASK = 2147483648 := rfl

theorem MAX_TIE_DEPTH_eq : MAX_TIE_DEPTH = 2047 := rfl

theorem MAX_WIN_DEPTH_eq : MAX_WIN_DEPTH = 2047 := rfl

theorem NO_INFO_data : NO_INFO.data = 4192256 := rfl

theorem ANCESTOR_data : ANCESTOR.data = 2147483648 := rfl

theorem and_2047 (d : Nat) : d &&& 2047 = d % 2048 := by
  have h := and_mask_eq d 0 11
  norm_num at h
  exact h

theorem and_4192256 (d : Nat) : d &&& 4192256 = d / 2048 % 2048 * 2048 := by
  have h := and_mask_eq d 11 11
  norm_num at h
  exact h

theorem and_2147483648 (d : Nat) :
    d &&& 2147483648 = d / 2147483648 % 2 * 2147483648 := by
  have h := and_mask_eq d 31 1
  norm_num at h
  exact h

theorem and_4294965248 (d : Nat) :
    d &&& 4294965248 = d / 2048 % 2097152 * 2048 := by
  have h := and_mask_eq d 11 21
  norm_num at h
  exact h

theorem xor_4192256 (d : Nat) :
    d ^^^ 4192256 =
      4194304 * (d / 4194304) + (2048 * (2047 - d / 2048 % 2048) + d % 2048) := by
  have h := xor_mask_eq d 11 11
  norm_num at h
  exact h

theorem turn_count_tie_arith (d : Nat) :
    turn_count_tie ⟨d⟩ = d % 2048 := by
  show (d &&& TIE_MASK) >>> TIE_SHIFT = d % 2048
  rw [TIE_MASK_eq, and_2047]
  rfl

theorem turn_count_win_arith (d : Nat) :
    turn_count_win ⟨d⟩ = (d / 2048 % 2048 + 1) % 2048 := by
  show (((d + (1 <<< WIN_SHIFT)) % U32_MOD) &&& WIN_MASK) >>> WIN_SHIFT = _
  rw [show (1 : Nat) <<< WIN_SHIFT = 2048 from rfl, U32_MOD_eq, WIN_MASK_eq,
    and_4192256, show WIN_SHIFT = 11 from rfl]
  rw [Nat.shiftRight_eq_div_pow]
  norm_num
  omega

theorem cur_player_wins_arith (d : Nat) :
    cur_player_wins ⟨d⟩ = decide (d / 2147483648 % 2 = 1) := by
  show ((d &&& CUR_PLAYER_WINS_MASK) != 0) = _
  rw [CPW_MASK_eq, and_2147483648]
  rcases Nat.mod_two_eq_zero_or_one (d / 2147483648) with h | h <;> simp [h]

theorem is_tie_arith (d : Nat) :
    is_tie ⟨d⟩ = decide (d / 2048 % 2048 = 2047) := by
  show ((d &&& WIN_MASK) == WIN_MASK) = _
  rw [WIN_MASK_eq, and_4192256]
  by_cases h : d / 2048 % 2048 = 2047
  · simp [h]
  · simp [h]
    omega

theorem is_guaranteed_tie_arith (d : Nat) :
    is_guaranteed_tie ⟨d⟩ = decide (d % 2048 = 2047) := by
  show ((d &&& TIE_MASK) == TIE_MASK) = _
  rw [TIE_MASK_eq, and_2047]
  by_cases h : d % 2048 = 2047 <;> simp [h]

theorem determined_depth_arith (d : Nat) :
    determined_depth ⟨d⟩ = max (d % 2048) ((d / 2048 % 2048 + 1) % 2048) := by
  show max ((((d + (1 <<< WIN_SHIFT)) % U32_MOD) &&& TIE_MASK) >>> TIE_SHIFT)
      ((((d + (1 <<< WIN_SHIFT)) % U32_MOD) &&& WIN_MASK) >>> WIN_SHIFT) = _
  rw [show (1 : Nat) <<< WIN_SHIFT = 2048 from rfl, U32_MOD_eq, TIE_MASK_eq,
    WIN_MASK_eq, and_2047, and_4192256, show TIE_SHIFT = 0 from rfl,
    show WIN_SHIFT = 11 from rfl]
  rw [Nat.shiftRight_zero, Nat.shiftRight_eq_div_pow]
  norm_num
  omega

theorem determined_arith (d sd : Nat) :
    determined ⟨d⟩ sd =
      (decide (sd > d / 2048 % 2048) || decide (sd ≤ d % 2048)) := by
  show (decide (sd > (d &&& WIN_MASK) >>> WIN_SHIFT)
      || decide (sd ≤ (d &&& TIE_MASK) >>> TIE_SHIFT)) = _
  rw [TIE_MASK_eq, WIN_MASK_eq, and_2047, and_4192256,
    show TIE_SHIFT = 0 from rfl, show WIN_SHIFT = 11 from rfl,
    Nat.shiftRight_zero, Nat.shiftRight_eq_div_pow]
  norm_num

theorem new_data (c : Bool) (t w : Nat) :
    (new c t w).data =
      (cond c 1 0) * 2147483648 + t + (if w = 0 then 2047 else w - 1) * 2048 := by
  show pack c t (if w = 0 then MAX_WIN_DEPTH else w - 1) = _
  rw [MAX_WIN_DEPTH_eq]
  show (cond c 1 0) <<< CUR_PLAYER_WINS_SHIFT + t <<< TIE_SHIFT
      + (if w = 0 then 2047 else w - 1) <<< WIN_SHIFT = _
  rw [show CUR_PLAYER_WINS_SHIFT = 31 from rfl, show TIE_SHIFT = 0 from rfl,
    show WIN_SHIFT = 11 from rfl, Nat.shiftLeft_eq, Nat.shiftLeft_eq,
    Nat.shiftLeft_eq]
  norm_num

theorem break_early_arith (d : Nat) :
    break_early ⟨d⟩ = ⟨d / 2048 % 2097152 * 2048⟩ := by
  show (⟨d &&& (TIE_MASK ^^^ (U32_MOD - 1))⟩ : Score) = _
  rw [show TIE_MASK ^^^ (U32_MOD - 1) = 4294965248 from rfl, and_4294965248]

theorem bne_zero_arith (x : Nat) : (x != 0) = decide (x ≠ 0) := by
  by_cases h : x = 0 <;> simp [h]

theorem merge_arith (d1 d2 : Nat) :
    merge ⟨d1⟩ ⟨d2⟩ =
      ⟨max (d1 % 2048) (d2 % 2048)
        + min (d1 / 2048 % 2048) (d2 / 2048 % 2048) * 2048
        + max (d1 / 2147483648 % 2) (d2 / 2147483648 % 2) * 2147483648⟩ := by
  show (⟨max (d1 &&& TIE_MASK) (d2 &&& TIE_MASK)
      + min (d1 &&& WIN_MASK) (d2 &&& WIN_MASK)
      + ((d1 &&& CUR_PLAYER_WINS_MASK) ||| (d2 &&& CUR_PLAYER_WINS_MASK))⟩ : Score) = _
  rw [TIE_MASK_eq, WIN_MASK_eq, CPW_MASK_eq, and_2047, and_2047, and_4192256,
    and_4192256, and_2147483648, and_2147483648, Score.mk.injEq]
  rcases Nat.mod_two_eq_zero_or_one (d1 / 2147483648) with h1 | h1 <;>
    rcases Nat.mod_two_eq_zero_or_one (d2 / 2147483648) with h2 | h2 <;>
      rw [h1, h2] <;> norm_num <;> omega

theorem compatible_arith (d1 d2 : Nat) :
    (compatible ⟨d1⟩ ⟨d2⟩ = true) ↔
      (d2 % 2048 ≤ d1 / 2048 % 2048 ∧ d1 % 2048 ≤ d2 / 2048 % 2048
        ∧ (d1 / 2048 % 2048 = 2047 ∨ d2 / 2048 % 2048 = 2047
            ∨ d1 / 2147483648 % 2 = d2 / 2147483648 % 2)) := by
  show (decide ((d1 &&& WIN_MASK) ≥ (d2 &&& TIE_MASK) <<< (WIN_SHIFT - TIE_SHIFT))
      && decide ((d2 &&& WIN_MASK) ≥ (d1 &&& TIE_MASK) <<< (WIN_SHIFT - TIE_SHIFT))
      && ((⟨d1⟩ : Score).is_tie || (⟨d2⟩ : Score).is_tie
          || ((d1 &&& CUR_PLAYER_WINS_MASK) == (d2 &&& CUR_PLAYER_WINS_MASK)))) = true
    ↔ _
  rw [TIE_MASK_eq, WIN_MASK_eq, CPW_MASK_eq, and_2047, and_2047, and_4192256,
    and_4192256, and_2147483648, and_2147483648, is_tie_arith, is_tie_arith,
    show WIN_SHIFT - TIE_SHIFT = 11 from rfl, Nat.shiftLeft_eq, Nat.shiftLeft_eq]
  simp only [Bool.and_eq_true, Bool.or_eq_true, decide_eq_true_eq, beq_iff_eq]
  norm_num
  omega

theorem backstep_arith (d : Nat) :
    backstep ⟨d⟩ =
      ⟨(d + ((if d / 2048 % 2048 = 2047 then 0 else 2147485696)
        + (if d % 2048 = 2047 then 0 else 1))) % 4294967296⟩ := by
  show (⟨(d + ((cond (!(⟨d⟩ : Score).is_tie) 1 0)
        * ((1 <<< WIN_SHIFT) ||| CUR_PLAYER_WINS_MASK)
      + (cond (!(⟨d⟩ : Score).is_guaranteed_tie) 1 0) * (1 <<< TIE_SHIFT)))
      % U32_MOD⟩ : Score) = _
  rw [is_tie_arith, is_guaranteed_tie_arith, U32_MOD_eq,
    show ((1 : Nat) <<< WIN_SHIFT) ||| CUR_PLAYER_WINS_MASK = 2147485696 from rfl,
    show (1 : Nat) <<< TIE_SHIFT = 1 from rfl]
  by_cases h1 : d / 2048 % 2048 = 2047 <;> by_cases h2 : d % 2048 = 2047 <;>
    simp [h1, h2]

theorem forwardstep_arith (d : Nat) :
    forwardstep ⟨d⟩ =
      ⟨(d + (4294967296 -
        ((if d / 2048 % 2048 = 2047 then 0 else 2147483648)
          + (if d / 2048 % 2048 = 2047 ∨ d / 2048 % 2048 = 0 then 0 else 2048)
          + (if d % 2048 = 2047 ∨ d % 2048 = 0 then 0 else 1)))) % 4294967296⟩ := by
  show (⟨(d + (U32_MOD -
      ((cond (!(⟨d⟩ : Score).is_tie) 1 0) * CUR_PLAYER_WINS_MASK
        + (cond ((!(⟨d⟩ : Score).is_tie) && ((d &&& WIN_MASK) != 0)) 1 0)
            * (1 <<< WIN_SHIFT)
        + (cond ((!(⟨d⟩ : Score).is_guaranteed_tie) && ((d &&& TIE_MASK) != 0)) 1 0)
            * (1 <<< TIE_SHIFT)) % U32_MOD)) % U32_MOD⟩ : Score) = _
  rw [is_tie_arith, is_guaranteed_tie_arith, U32_MOD_eq, TIE_MASK_eq, WIN_MASK_eq,
    and_2047, and_4192256, CPW_MASK_eq,
    show (1 : Nat) <<< WIN_SHIFT = 2048 from rfl,
    show (1 : Nat) <<< TIE_SHIFT = 1 from rfl]
  simp only [bne_zero_arith, Score.mk.injEq]
  by_cases h1 : d / 2048 % 2048 = 2047 <;> by_cases h2 : d / 2048 % 2048 = 0 <;>
    by_cases h3 : d % 2048 = 2047 <;> by_cases h4 : d % 2048 = 0 <;>
      simp [h1, h2, h3, h4]

theorem transform_data_arith (d : Nat) (h : d < 4294967296) :
    transform_data d =
      if d < 2147483648 then d
      else 4194304 * (d / 4194304) + (2048 * (2047 - d / 2048 % 2048) + d % 2048) := by
  show d ^^^ ((if d < 2 ^ 31 then d >>> (CUR_PLAYER_WINS_SHIFT - WIN_SHIFT)
      else d >>> (CUR_PLAYER_WINS_SHIFT - WIN_SHIFT) + (U32_MOD - 2 ^ 12))
        &&& WIN_MASK) = _
  rw [show CUR_PLAYER_WINS_SHIFT - WIN_SHIFT = 20 from rfl, U32_MOD_eq, WIN_MASK_eq,
    Nat.shiftRight_eq_div_pow]
  norm_num
  by_cases h1 : d < 2147483648
  · rw [if_pos h1, if_pos h1, and_4192256,
      show d / 1048576 / 2048 % 2048 * 2048 = 0 by omega, Nat.xor_zero]
  · rw [if_neg h1, if_neg h1, and_4192256,
      show (d / 1048576 + 4294963200) / 2048 % 2048 * 2048 = 4192256 by omega,
      xor_4192256]

theorem valid_arith (d : Nat) :
    (⟨d⟩ : Score).Valid ↔
      (d < 4294967296 ∧ d / 4194304 % 512 = 0
        ∧ (d / 2048 % 2048 = 2047 → d / 2147483648 = 0)
        ∧ (d / 2048 % 2048 < 2047 → d % 2048 ≤ d / 2048 % 2048)) := by
  unfold Valid
  rw [U32_MOD_eq]
  norm_num

theorem new_mk (c : Bool) (t w : Nat) :
    new c t w =
      ⟨(cond c 1 0) * 2147483648 + t + (if w = 0 then 2047 else w - 1) * 2048⟩ := by
  rw [← new_data]

theorem NO_INFO_mk : NO_INFO = (⟨4192256⟩ : Score) := rfl

theorem eta_mk (s : Score) : s = ⟨s.data⟩ := rfl

theorem new_field_tie (c : Bool) (t w : Nat) (ht : t ≤ 2047) :
    (new c t w).data % 2048 = t := by
  rw [new_data]
  cases c <;> by_cases h : w = 0 <;> simp [h] <;> omega

theorem new_field_win (c : Bool) (t w : Nat) (ht : t ≤ 2047) (hw : w ≤ 2047) :
    (new c t w).data / 2048 % 2048 = if w = 0 then 2047 else w - 1 := by
  rw [new_data]
  cases c <;> by_cases h : w = 0 <;> simp [h] <;> omega

theorem new_field_cpw (c : Bool) (t w : Nat) (ht : t ≤ 2047) (hw : w ≤ 2047) :
    (new c t w).data / 2147483648 % 2 = cond c 1 0 := by
  rw [new_data]
  cases c <;> by_cases h : w = 0 <;> simp [h] <;> omega

theorem new_field_lt (c : Bool) (t w : Nat) (ht : t ≤ 2047) (hw : w ≤ 2047) :
    (new c t w).data < 4294967296 := by
  rw [new_data]
  cases c <;> by_cases h : w = 0 <;> simp [h] <;> omega

/-- C1: for compatible scores built by the raw constructor under its
documented preconditions, `merge` yields the score with
`turn_count_tie = max t1 t2`, decided depth the minimum of the two decided
depths (`0` sentinel treated as infinity, so the result is tie-only exactly
when both inputs are), and the winner flag the disjunction of the two flags;
moreover `merge` with `no_info` is the identity, and
`merge (win 10) (tie 5) = new true 5 10`. -/
theorem merge_matches_spec (c1 : Bool) (t1 w1 : Nat) (c2 : Bool) (t2 w2 : Nat)
    (ht1 : t1 ≤ MAX_TIE_DEPTH) (hw1 : w1 < MAX_WIN_DEPTH) (hc1 : c1 = true → w1 ≠ 0)
    (ht2 : t2 ≤ MAX_TIE_DEPTH) (hw2 : w2 < MAX_WIN_DEPTH) (hc2 : c2 = true → w2 ≠ 0)
    (hcompat : (new c1 t1 w1).compatible (new c2 t2 w2) = true) :
    (new c1 t1 w1).merge (new c2 t2 w2)
        = new (c1 || c2) (max t1 t2) (spec_merge_win_depth w1 w2)
      ∧ (new c1 t1 w1).merge NO_INFO = new c1 t1 w1
      ∧ (win 10).merge (tie 5) = new true 5 10 := by
  rw [MAX_TIE_DEPTH_eq] at ht1 ht2
  rw [MAX_WIN_DEPTH_eq] at hw1 hw2
  refine ⟨?_, ?_, by decide⟩
  · rw [eta_mk (new c1 t1 w1), eta_mk (new c2 t2 w2), compatible_arith,
      new_field_tie c1 t1 w1 ht1, new_field_tie c2 t2 w2 ht2,
      new_field_win c1 t1 w1 ht1 (by omega), new_field_win c2 t2 w2 ht2 (by omega),
      new_field_cpw c1 t1 w1 ht1 (by omega), new_field_cpw c2 t2 w2 ht2 (by omega)]
      at hcompat
    rw [eta_mk (new c1 t1 w1), eta_mk (new c2 t2 w2), merge_arith,
      new_field_tie c1 t1 w1 ht1, new_field_tie c2 t2 w2 ht2,
      new_field_win c1 t1 w1 ht1 (by omega), new_field_win c2 t2 w2 ht2 (by omega),
      new_field_cpw c1 t1 w1 ht1 (by omega), new_field_cpw c2 t2 w2 ht2 (by omega),
      new_mk (c1 || c2), Score.mk.injEq]
    simp only [spec_merge_win_depth]
    cases c1 <;> cases c2 <;>
      simp only [cond_true, cond_false, Bool.or_self, Bool.or_true, Bool.true_or,
        Bool.or_false, Bool.false_or, forall_const, ne_eq] at hc1 hc2 ⊢ <;>
      by_cases h10 : w1 = 0 <;> by_cases h20 : w2 = 0 <;>
        simp only [h10, h20, if_true, if_false, ite_true, ite_false] at hcompat ⊢ <;>
        first
        | omega
        | (rw [if_neg (show ¬ (min w1 w2 = 0) by omega)]; omega)
  · rw [eta_mk (new c1 t1 w1), NO_INFO_mk, merge_arith,
      new_field_tie c1 t1 w1 ht1,
      new_field_win c1 t1 w1 ht1 (by omega),
      new_field_cpw c1 t1 w1 ht1 (by omega), new_data, Score.mk.injEq]
    cases c1 <;> by_cases h10 : w1 = 0 <;>
      simp only [h10, cond_true, cond_false, if_true, if_false, ite_true,
        ite_false] <;>
      omega

/-- Witness for C1 at the concrete pair `win 10`, `tie 5`. -/
theorem merge_matches_spec_witness :
    (new true 0 10).merge (new false 5 0)
        = new (true || false) (max 0 5) (spec_merge_win_depth 10 0)
      ∧ (new true 0 10).merge NO_INFO = new true 0 10
      ∧ (win 10).merge (tie 5) = new true 5 10 :=
  merge_matches_spec true 0 10 false 5 0 (by decide) (by decide) (by decide)
    (by decide) (by decide) (by decide) (by decide)

/-- C2: for scores built by the raw constructor under its documented
preconditions, `compatible` returns true iff each decided depth (with the
`0` sentinel read as infinity) lies strictly beyond the other score's proven
tie depth and the winner flags agree whenever agreement is required (both
sides decided; against a tie-only score, which claims no winner, agreement
is vacuous); moreover `guaranteed_tie` is incompatible with `win 1` and with
`lose 1`, and `compatible` is symmetric on all scores. -/
theorem compatible_matches_spec (c1 : Bool) (t1 w1 : Nat) (c2 : Bool) (t2 w2 : Nat)
    (ht1 : t1 ≤ MAX_TIE_DEPTH) (hw1 : w1 < MAX_WIN_DEPTH) (hc1 : c1 = true → w1 ≠ 0)
    (ht2 : t2 ≤ MAX_TIE_DEPTH) (hw2 : w2 < MAX_WIN_DEPTH) (hc2 : c2 = true → w2 ≠ 0) :
    ((new c1 t1 w1).compatible (new c2 t2 w2) = true
        ↔ ((w1 = 0 ∨ t2 < w1) ∧ (w2 = 0 ∨ t1 < w2)
            ∧ (w1 ≠ 0 → w2 ≠ 0 → c1 = c2)))
      ∧ guaranteed_tie.compatible (win 1) = false
      ∧ guaranteed_tie.compatible (lose 1) = false
      ∧ (∀ s1 s2 : Score, s1.compatible s2 = s2.compatible s1) := by
  rw [MAX_TIE_DEPTH_eq] at ht1 ht2
  rw [MAX_WIN_DEPTH_eq] at hw1 hw2
  refine ⟨?_, by decide, by decide, ?_⟩
  · rw [eta_mk (new c1 t1 w1), eta_mk (new c2 t2 w2), compatible_arith,
      new_field_tie c1 t1 w1 ht1, new_field_tie c2 t2 w2 ht2,
      new_field_win c1 t1 w1 ht1 (by omega), new_field_win c2 t2 w2 ht2 (by omega),
      new_field_cpw c1 t1 w1 ht1 (by omega), new_field_cpw c2 t2 w2 ht2 (by omega)]
    cases c1 <;> cases c2 <;>
      simp only [cond_true, cond_false, forall_const, ne_eq, Bool.true_eq_false,
        Bool.false_eq_true, eq_self_iff_true] at hc1 hc2 ⊢ <;>
      by_cases h10 : w1 = 0 <;> by_cases h20 : w2 = 0 <;>
        simp only [h10, h20, if_true, if_false, ite_true, ite_false,
          eq_self_iff_true, true_or, or_true, true_and, and_true, true_implies,
          implies_true, ne_eq, not_true, not_false_iff, false_implies,
          false_or, or_false, false_and, and_false, iff_true, iff_false] <;>
        omega
  · intro s1 s2
    obtain ⟨d1⟩ := s1
    obtain ⟨d2⟩ := s2
    rw [Bool.eq_iff_iff, compatible_arith, compatible_arith]
    omega


/-- Witness for C2 at `guaranteed_tie` versus `win 1`. -/
theorem compatible_matches_spec_witness :
    ((new false 2047 0).compatible (new true 0 1) = true
        ↔ ((0 = 0 ∨ (0:Nat) < 0) ∧ (1 = 0 ∨ 2047 < 1)
            ∧ ((0:Nat) ≠ 0 → (1:Nat) ≠ 0 → false = true)))
      ∧ guaranteed_tie.compatible (win 1) = false
      ∧ guaranteed_tie.compatible (lose 1) = false
      ∧ (∀ s1 s2 : Score, s1.compatible s2 = s2.compatible s1) :=
  compatible_matches_spec false 2047 0 true 0 1 (by decide) (by decide) (by decide)
    (by decide) (by decide) (by decide)

/-- C3: the claim fails on the code and the code contradicts its own comment
(`turn_count_win_ = 0` is called "an impossible state to be in"): the
legitimately constructed scores `win 1` and `optimal_win 1` (i.e.
`new true 0 1`, allowed by every documented precondition) pack the winner
flag with a stored win field of zero, which is exactly the ancestor
sentinel's bit pattern. -/
theorem constructed_score_collides_with_ancestor :
    (win 1).is_ancestor = true
      ∧ (optimal_win 1).is_ancestor = true
      ∧ win 1 = ANCESTOR
      ∧ (new true 0 1).is_ancestor = true := by
  decide

/-- C10: on every well-formed score, `break_early` preserves the winner flag,
the tie-only sentinel and the decoded win depth, and zeroes the proven-tie
field; consequently every well-formed tie-only score (in particular `tie n`
and `guaranteed_tie`) collapses to `no_info`. -/
theorem break_early_frame (s : Score) (h : s.Valid) :
    s.break_early.cur_player_wins = s.cur_player_wins
      ∧ s.break_early.is_tie = s.is_tie
      ∧ s.break_early.turn_count_win = s.turn_count_win
      ∧ s.break_early.turn_count_tie = 0
      ∧ (s.is_tie = true → s.break_early = NO_INFO)
      ∧ (∀ n, n ≤ MAX_TIE_DEPTH → (tie n).break_early = NO_INFO)
      ∧ guaranteed_tie.break_early = NO_INFO := by
  obtain ⟨d⟩ := s
  rw [valid_arith] at h
  obtain ⟨hlt, hu, hcz, htw⟩ := h
  refine ⟨?_, ?_, ?_, ?_, ?_, ?_, by decide⟩
  · rw [break_early_arith, cur_player_wins_arith, cur_player_wins_arith,
      show d / 2048 % 2097152 * 2048 / 2147483648 % 2 = d / 2147483648 % 2 by omega]
  · rw [break_early_arith, is_tie_arith, is_tie_arith,
      show d / 2048 % 2097152 * 2048 / 2048 % 2048 = d / 2048 % 2048 by omega]
  · rw [break_early_arith, turn_count_win_arith, turn_count_win_arith,
      show d / 2048 % 2097152 * 2048 / 2048 % 2048 = d / 2048 % 2048 by omega]
  · rw [break_early_arith, turn_count_tie_arith]
    omega
  · intro h5
    rw [is_tie_arith, decide_eq_true_eq] at h5
    rw [break_early_arith, NO_INFO_mk, Score.mk.injEq]
    omega
  · intro n hn
    rw [MAX_TIE_DEPTH_eq] at hn
    have hd : (tie n).data = 0 * 2147483648 + n + 2047 * 2048 := by
      rw [show tie n = new false n 0 from rfl, new_data]
      simp
    rw [eta_mk (tie n), break_early_arith, hd, NO_INFO_mk, Score.mk.injEq]
    omega

/-- Witness for C10 at the concrete score `optimal_win 3`. -/
theorem break_early_frame_witness :
    (optimal_win 3).break_early.cur_player_wins = (optimal_win 3).cur_player_wins
      ∧ (optimal_win 3).break_early.is_tie = (optimal_win 3).is_tie
      ∧ (optimal_win 3).break_early.turn_count_win = (optimal_win 3).turn_count_win
      ∧ (optimal_win 3).break_early.turn_count_tie = 0
      ∧ ((optimal_win 3).is_tie = true → (optimal_win 3).break_early = NO_INFO)
      ∧ (∀ n, n ≤ MAX_TIE_DEPTH → (tie n).break_early = NO_INFO)
      ∧ guaranteed_tie.break_early = NO_INFO :=
  break_early_frame (optimal_win 3) (by decide)

/-- C7 counterexample: at the tie-only score `tie 5` and search depth `2048`
(a representable depth exceeding the win field's maximum), `determined`
returns true although the claimed formula
`d ≤ t ∨ (w ≠ 0 ∧ d ≥ w)` is false there. -/
theorem determined_claim_counterexample :
    (tie 5).determined 2048 = true
      ∧ ¬(2048 ≤ (tie 5).turn_count_tie
          ∨ ((tie 5).turn_count_win ≠ 0 ∧ 2048 ≥ (tie 5).turn_count_win)) := by
  decide

/-- C7 amended: for constructor-valid scores, `determined d` is true iff
`d ≤ turn_count_tie`, or the score is decided and `d ≥ turn_count_win`, or
the score is tie-only and `d` exceeds the win field's maximum (in that last
regime the code always answers true, diverging from the claimed formula). -/
theorem determined_matches_spec_amended (c : Bool) (t w d : Nat)
    (ht : t ≤ MAX_TIE_DEPTH) (hw : w < MAX_WIN_DEPTH) (hc : c = true → w ≠ 0) :
    ((new c t w).determined d = true
      ↔ (d ≤ t ∨ (w ≠ 0 ∧ w ≤ d) ∨ (w = 0 ∧ MAX_WIN_DEPTH < d))) := by
  rw [MAX_TIE_DEPTH_eq] at ht
  rw [MAX_WIN_DEPTH_eq] at hw ⊢
  rw [eta_mk (new c t w), determined_arith,
    new_field_tie c t w ht, new_field_win c t w ht (by omega)]
  simp only [Bool.or_eq_true, decide_eq_true_eq]
  by_cases h0 : w = 0 <;>
    simp only [h0, if_true, if_false, ite_true, ite_false, eq_self_iff_true,
      ne_eq, not_true, not_false_iff, true_and, false_and, and_true, and_false,
      true_or, or_true, false_or, or_false, not_true_eq_false,
      not_false_eq_true] <;>
    omega

/-- Witness for the amended C7 at `win 10` and depth `10`. -/
theorem determined_matches_spec_amended_witness :
    (new true 0 10).determined 10 = true
      ↔ (10 ≤ 0 ∨ ((10:Nat) ≠ 0 ∧ 10 ≤ 10) ∨ (10 = 0 ∧ MAX_WIN_DEPTH < 10)) :=
  determined_matches_spec_amended true 0 10 10 (by decide) (by decide) (by decide)

/-- C8: whenever the documented precondition holds (the queried depth is
covered by the proven-tie region, or the score is decided and the depth is
at or past the decided depth), `score_at_depth` never reaches its
undefined-behavior branch: it returns `Tie` for depths inside the tie
region and otherwise the winner encoded by the `cur_player_wins` flag. -/
theorem score_at_depth_safe (s : Score) (d : Nat)
    (h : d ≤ s.turn_count_tie ∨ (s.turn_count_win ≠ 0 ∧ s.turn_count_win ≤ d)) :
    s.score_at_depth d =
      some (if d ≤ s.turn_count_tie then ScoreValue.Tie
            else if s.cur_player_wins then ScoreValue.CurrentPlayerWins
            else ScoreValue.OtherPlayerWins) := by
  unfold score_at_depth
  by_cases h1 : d ≤ s.turn_count_tie
  · rw [if_pos h1, if_pos h1]
  · rw [if_neg h1, if_neg h1, if_pos (by omega : d ≥ s.turn_count_win)]

/-- Witness for C8 at the decided score `lose 3` queried at depth `7`. -/
theorem score_at_depth_safe_witness :
    (lose 3).score_at_depth 7 =
      some (if 7 ≤ (lose 3).turn_count_tie then ScoreValue.Tie
            else if (lose 3).cur_player_wins then ScoreValue.CurrentPlayerWins
            else ScoreValue.OtherPlayerWins) :=
  score_at_depth_safe (lose 3) 7 (by decide)

/-- C6: on well-formed scores that are away from the sentinel and field-limit
boundaries (tie field strictly inside its range, and, when decided, decoded
win depth strictly inside its range), `backstep` and `forwardstep` are exact
mutual inverses. -/
theorem backstep_forwardstep_inverses (s : Score) (hv : s.Valid)
    (hlo : 1 ≤ s.turn_count_tie) (hhi : s.turn_count_tie ≤ MAX_TIE_DEPTH - 2)
    (hw : s.is_tie = true
      ∨ (2 ≤ s.turn_count_win ∧ s.turn_count_win ≤ MAX_WIN_DEPTH - 1)) :
    s.backstep.forwardstep = s ∧ s.forwardstep.backstep = s := by
  obtain ⟨d⟩ := s
  rw [valid_arith] at hv
  obtain ⟨h1, h2, h3, h4⟩ := hv
  rw [turn_count_tie_arith] at hlo hhi
  rw [is_tie_arith, turn_count_win_arith, decide_eq_true_eq] at hw
  rw [MAX_TIE_DEPTH_eq] at hhi
  rw [MAX_WIN_DEPTH_eq] at hw
  constructor
  · rw [backstep_arith, forwardstep_arith, Score.mk.injEq]
    split_ifs <;> omega
  · rw [forwardstep_arith, backstep_arith, Score.mk.injEq]
    split_ifs <;> omega

/-- Witness for C6 at the concrete score `optimal_win 3`. -/
theorem backstep_forwardstep_inverses_witness :
    (optimal_win 3).backstep.forwardstep = optimal_win 3
      ∧ (optimal_win 3).forwardstep.backstep = optimal_win 3 :=
  backstep_forwardstep_inverses (optimal_win 3) (by decide) (by decide) (by decide)
    (by decide)

theorem valid_new (c : Bool) (t w : Nat) (ht : t ≤ 2047) (hw : w < 2047)
    (hc : c = true → w ≠ 0) (htw : w ≠ 0 → t < w) : (new c t w).Valid := by
  rw [eta_mk (new c t w), valid_arith, new_data]
  cases c
  · by_cases h0 : w = 0
    · simp only [h0, cond_false, eq_self_iff_true, if_true, ite_true]
      omega
    · have h5 := htw h0
      rw [if_neg h0]
      simp only [cond_false]
      omega
  · have h6 := hc rfl
    have h5 := htw h6
    rw [if_neg h6]
    simp only [cond_true]
    omega

theorem valid_backstep (s : Score) (hv : s.Valid)
    (hpre : s.is_tie = true ∨ s.turn_count_win < MAX_WIN_DEPTH) :
    s.backstep.Valid := by
  obtain ⟨d⟩ := s
  rw [valid_arith] at hv
  rw [is_tie_arith, decide_eq_true_eq, turn_count_win_arith, MAX_WIN_DEPTH_eq]
    at hpre
  rw [backstep_arith, valid_arith]
  split_ifs <;> omega

theorem valid_forwardstep (s : Score) (hv : s.Valid) : s.forwardstep.Valid := by
  obtain ⟨d⟩ := s
  rw [valid_arith] at hv
  rw [forwardstep_arith, valid_arith]
  split_ifs <;> omega

theorem valid_merge (s1 s2 : Score) (hv1 : s1.Valid) (hv2 : s2.Valid)
    (hc : s1.compatible s2 = true) : (s1.merge s2).Valid := by
  obtain ⟨d1⟩ := s1
  obtain ⟨d2⟩ := s2
  rw [valid_arith] at hv1 hv2
  rw [compatible_arith] at hc
  rw [merge_arith, valid_arith]
  omega

theorem valid_break_early (s : Score) (hv : s.Valid) : s.break_early.Valid := by
  obtain ⟨d⟩ := s
  rw [valid_arith] at hv
  rw [break_early_arith, valid_arith]
  omega

theorem reachable_valid (s : Score) (h : Reachable s) : s.Valid := by
  induction h with
  | of_new c t w ht hw hc htw =>
      rw [MAX_TIE_DEPTH_eq] at ht
      rw [MAX_WIN_DEPTH_eq] at hw
      exact valid_new c t w ht hw hc htw
  | of_win n hn hnm =>
      rw [MAX_WIN_DEPTH_eq] at hnm
      exact valid_new true 0 n (by omega) hnm (fun _ => hn) (fun _ => by omega)
  | of_optimal_win n hn hnm =>
      rw [MAX_WIN_DEPTH_eq] at hnm
      exact valid_new true (n - 1) n (by omega) hnm (fun _ => hn) (fun _ => by omega)
  | of_lose n hn hnm =>
      rw [MAX_WIN_DEPTH_eq] at hnm
      exact valid_new false 0 n (by omega) hnm (by simp) (fun _ => by omega)
  | of_optimal_lose n hn hnm =>
      rw [MAX_WIN_DEPTH_eq] at hnm
      exact valid_new false (n - 1) n (by omega) hnm (by simp) (fun _ => by omega)
  | of_tie n hn =>
      rw [MAX_TIE_DEPTH_eq] at hn
      exact valid_new false n 0 hn (by omega) (by simp) (by simp)
  | of_guaranteed_tie =>
      exact valid_new false 2047 0 (by omega) (by omega) (by simp) (by simp)
  | of_no_info =>
      exact valid_new false 0 0 (by omega) (by omega) (by simp) (by simp)
  | of_backstep s hs hpre ih => exact valid_backstep s ih hpre
  | of_forwardstep s hs ih => exact valid_forwardstep s ih
  | of_merge s1 s2 h1 h2 hc ih1 ih2 => exact valid_merge s1 s2 ih1 ih2 hc
  | of_break_early s hs ih => exact valid_break_early s ih

/-- C4 counterexample: the raw constructor's documented preconditions (spec
SS4.1: the counts fit their bit fields; the code's debug asserts add only
cur_player_wins implying a nonzero win count) admit `new false 10 5`, whose
proven-tie depth 10 is not below its decided depth 5 - so the invariant is
not implied by the documented preconditions alone. -/
theorem reachable_invariant_counterexample :
    10 ≤ MAX_TIE_DEPTH ∧ 5 < MAX_WIN_DEPTH
      ∧ (new false 10 5).turn_count_win ≠ 0
      ∧ ¬((new false 10 5).turn_count_tie < (new false 10 5).turn_count_win) := by
  decide

/-- C4 amended: when the raw constructor is additionally restricted to valid
argument triples (`turn_count_tie < turn_count_win` unless
`turn_count_win = 0`, the validity notion of spec SS8), every score reachable
from the public constructors via `backstep`, `forwardstep`, `merge` and
`break_early` under their documented preconditions satisfies
`turn_count_tie < turn_count_win` whenever `turn_count_win` is nonzero. -/
theorem reachable_invariant (s : Score) (h : Reachable s)
    (hd : s.turn_count_win ≠ 0) : s.turn_count_tie < s.turn_count_win := by
  have hval : s.Valid := reachable_valid s h
  obtain ⟨d⟩ := s
  rw [valid_arith] at hval
  rw [turn_count_win_arith] at hd ⊢
  rw [turn_count_tie_arith]
  omega

/-- Witness for the amended C4 at the reachable score `backstep (win 3)`. -/
theorem reachable_invariant_witness :
    (win 3).backstep.turn_count_tie < (win 3).backstep.turn_count_win :=
  reachable_invariant (win 3).backstep
    (Reachable.of_backstep (win 3) (Reachable.of_win 3 (by decide) (by decide))
      (Or.inr (by decide)))
    (by decide)

theorem better_iff (s1 s2 : Score) :
    (s1.better s2 = true) ↔ transform_data s1.data > transform_data s2.data := by
  simp [better]

theorem transform_data_inj (d1 d2 : Nat) (h1 : d1 < 4294967296)
    (h2 : d2 < 4294967296) (h : transform_data d1 = transform_data d2) :
    d1 = d2 := by
  rw [transform_data_arith d1 h1, transform_data_arith d2 h2] at h
  split_ifs at h <;> omega

/-- C5: `better` is irreflexive and transitive on all scores, and on 32-bit
score values exactly one of `a.better b`, `a = b`, `b.better a` holds (a
strict total order consistent with equality of the packed value); moreover
any win beats any tie-only score, which beats any loss, a smaller win depth
beats a larger one, a larger loss depth beats a smaller one, a deeper proven
tie beats a shallower one, with equal flag and decided depth the deeper
proven tie region wins, and `optimal_win 5` is better than `win 5`. -/
theorem better_strict_total_order :
    (∀ s : Score, s.better s = false)
      ∧ (∀ a b c : Score, a.better b = true → b.better c = true →
          a.better c = true)
      ∧ (∀ a b : Score, a.data < U32_MOD → b.data < U32_MOD →
          ((a.better b = true ∧ ¬ a = b ∧ ¬ b.better a = true)
            ∨ (¬ a.better b = true ∧ a = b ∧ ¬ b.better a = true)
            ∨ (¬ a.better b = true ∧ ¬ a = b ∧ b.better a = true)))
      ∧ (∀ w t, 1 ≤ w → w < MAX_WIN_DEPTH → t ≤ MAX_TIE_DEPTH →
          (win w).better (tie t) = true ∧ (tie t).better (lose w) = true)
      ∧ (∀ w1 w2, 1 ≤ w1 → w1 < w2 → w2 < MAX_WIN_DEPTH →
          (win w1).better (win w2) = true ∧ (lose w2).better (lose w1) = true)
      ∧ (∀ t1 t2, t2 < t1 → t1 ≤ MAX_TIE_DEPTH → (tie t1).better (tie t2) = true)
      ∧ (∀ (c : Bool) (t1 t2 w : Nat), t2 < t1 → t1 ≤ MAX_TIE_DEPTH →
          w < MAX_WIN_DEPTH → (new c t1 w).better (new c t2 w) = true)
      ∧ (optimal_win 5).better (win 5) = true := by
  rw [U32_MOD_eq, MAX_WIN_DEPTH_eq, MAX_TIE_DEPTH_eq]
  refine ⟨?_, ?_, ?_, ?_, ?_, ?_, ?_, by decide⟩
  · intro s
    simp [better]
  · intro a b c hab hbc
    rw [better_iff] at hab hbc ⊢
    omega
  · intro a b ha hb
    obtain ⟨d1⟩ := a
    obtain ⟨d2⟩ := b
    simp only [better_iff, Score.mk.injEq]
    rcases Nat.lt_trichotomy (transform_data d1) (transform_data d2) with h | h | h
    · right; right
      refine ⟨by omega, fun he => ?_, by omega⟩
      subst he
      omega
    · right; left
      have := transform_data_inj d1 d2 ha hb h
      exact ⟨by omega, this, by omega⟩
    · left
      refine ⟨by omega, fun he => ?_, by omega⟩
      subst he
      omega
  · intro w t hw1 hw2 ht
    constructor
    · rw [show win w = new true 0 w from rfl, show tie t = new false t 0 from rfl,
        better_iff,
        transform_data_arith _ (new_field_lt true 0 w (by omega) (by omega)),
        transform_data_arith _ (new_field_lt false t 0 ht (by omega)),
        new_data, new_data]
      simp only [cond_true, cond_false]
      split_ifs <;> omega
    · rw [show tie t = new false t 0 from rfl, show lose w = new false 0 w from rfl,
        better_iff,
        transform_data_arith _ (new_field_lt false t 0 ht (by omega)),
        transform_data_arith _ (new_field_lt false 0 w (by omega) (by omega)),
        new_data, new_data]
      simp only [cond_true, cond_false]
      split_ifs <;> omega
  · intro w1 w2 hq1 hlt hq2
    constructor
    · rw [show win w1 = new true 0 w1 from rfl, show win w2 = new true 0 w2 from rfl,
        better_iff,
        transform_data_arith _ (new_field_lt true 0 w1 (by omega) (by omega)),
        transform_data_arith _ (new_field_lt true 0 w2 (by omega) (by omega)),
        new_data, new_data]
      simp only [cond_true, cond_false]
      split_ifs <;> omega
    · rw [show lose w2 = new false 0 w2 from rfl,
        show lose w1 = new false 0 w1 from rfl, better_iff,
        transform_data_arith _ (new_field_lt false 0 w2 (by omega) (by omega)),
        transform_data_arith _ (new_field_lt false 0 w1 (by omega) (by omega)),
        new_data, new_data]
      simp only [cond_true, cond_false]
      split_ifs <;> omega
  · intro t1 t2 h21 ht
    rw [show tie t1 = new false t1 0 from rfl, show tie t2 = new false t2 0 from rfl,
      better_iff,
      transform_data_arith _ (new_field_lt false t1 0 (by omega) (by omega)),
      transform_data_arith _ (new_field_lt false t2 0 (by omega) (by omega)),
      new_data, new_data]
    simp only [cond_true, cond_false]
    split_ifs <;> omega
  · intro c t1 t2 w h21 ht hw
    rw [better_iff,
      transform_data_arith _ (new_field_lt c t1 w (by omega) (by omega)),
      transform_data_arith _ (new_field_lt c t2 w (by omega) (by omega)),
      new_data, new_data]
    cases c <;> simp only [cond_true, cond_false] <;> split_ifs <;> omega

/-- Witness for C5 at concrete scores. -/
theorem better_strict_total_order_witness :
    (win 5).better (win 5) = false
      ∧ ((win 5).better (win 10) = true ∧ (lose 10).better (lose 5) = true)
      ∧ (optimal_win 5).better (win 5) = true :=
  ⟨better_strict_total_order.1 (win 5),
   better_strict_total_order.2.2.2.2.1 5 10 (by decide) (by decide) (by decide),
   better_strict_total_order.2.2.2.2.2.2.2⟩

/-- Supporting lemma for the spec-modelled `fully_determined`: testing
`determined` at depth `turn_count_tie + 1` is equivalent to `determined`
holding at every search depth. -/
theorem fully_determined_iff (s : Score) :
    s.fully_determined = true ↔ ∀ d, s.determined d = true := by
  obtain ⟨d⟩ := s
  constructor
  · intro h sd
    have h2 : determined ⟨d⟩ (turn_count_tie ⟨d⟩ + 1) = true := h
    rw [turn_count_tie_arith] at h2
    rw [determined_arith] at h2 ⊢
    simp only [Bool.or_eq_true, decide_eq_true_eq] at h2 ⊢
    omega
  · intro h
    exact h _

/-- C9: `from_score` yields nothing on `no_info`, the guaranteed-tie report
on a guaranteed tie, the depth-bounded tie report on a tie-only score with
finite positive tie depth, and on a decided score the win/loss report at the
decided depth exactly when the score is fully determined; in particular
`from_score (optimal_win 4)` is a win report at distance 4. -/
theorem from_score_matches_spec :
    DeterminedScore.from_score NO_INFO = none
      ∧ DeterminedScore.from_score guaranteed_tie
          = some DeterminedScore.guaranteed_tie
      ∧ (∀ n, 0 < n → n < MAX_TIE_DEPTH →
          DeterminedScore.from_score (tie n) = some (DeterminedScore.tie n))
      ∧ (∀ (c : Bool) (t w : Nat), t ≤ MAX_TIE_DEPTH → w ≠ 0 →
          w < MAX_WIN_DEPTH → t < w →
          DeterminedScore.from_score (new c t w)
            = if (new c t w).fully_determined = true
              then some ⟨if c = true then ScoreValue.CurrentPlayerWins
                         else ScoreValue.OtherPlayerWins, w⟩
              else none)
      ∧ DeterminedScore.from_score (optimal_win 4)
          = some (DeterminedScore.win 4) := by
  refine ⟨by decide, by decide, ?_, ?_, by decide⟩
  · intro n hn0 hn
    rw [MAX_TIE_DEPTH_eq] at hn
    have hd : (tie n).data = 0 * 2147483648 + n + 2047 * 2048 := by
      rw [show tie n = new false n 0 from rfl, new_data]
      simp
    have h1 : ¬(tie n = Score.NO_INFO) := by
      intro he
      have h1b := congrArg Score.data he
      rw [hd, NO_INFO_data] at h1b
      omega
    have h2 : ¬((tie n).is_guaranteed_tie = true) := by
      rw [eta_mk (tie n), is_guaranteed_tie_arith, decide_eq_true_eq, hd]
      omega
    have h3 : (tie n).is_tie = true := by
      rw [eta_mk (tie n), is_tie_arith, decide_eq_true_eq, hd]
      omega
    have h4 : (tie n).determined_depth = n := by
      rw [eta_mk (tie n), determined_depth_arith, hd]
      omega
    simp only [DeterminedScore.from_score]
    rw [if_neg h1, if_neg h2, if_pos h3, h4]
  · intro c t w ht hw0 hw htw
    rw [MAX_TIE_DEPTH_eq] at ht
    rw [MAX_WIN_DEPTH_eq] at hw
    cases c
    · have hd : (new false t w).data = t + (w - 1) * 2048 := by
        rw [new_data, if_neg hw0]
        simp only [cond_false]
        omega
      have h1 : ¬(new false t w = Score.NO_INFO) := by
        intro he
        have h1b := congrArg Score.data he
        rw [hd, NO_INFO_data] at h1b
        omega
      have h2 : ¬((new false t w).is_guaranteed_tie = true) := by
        rw [eta_mk (new false t w), is_guaranteed_tie_arith, decide_eq_true_eq, hd]
        omega
      have h3 : ¬((new false t w).is_tie = true) := by
        rw [eta_mk (new false t w), is_tie_arith, decide_eq_true_eq, hd]
        omega
      have htct : (new false t w).turn_count_tie = t := by
        rw [eta_mk (new false t w), turn_count_tie_arith, hd]
        omega
      have htcw : (new false t w).turn_count_win = w := by
        rw [eta_mk (new false t w), turn_count_win_arith, hd]
        omega
      have hdd : (new false t w).determined_depth = w := by
        rw [eta_mk (new false t w), determined_depth_arith, hd]
        omega
      have hcpw : (new false t w).cur_player_wins = false := by
        rw [eta_mk (new false t w), cur_player_wins_arith, hd]
        simp only [decide_eq_false_iff_not]
        omega
      have hfd : (new false t w).fully_determined
          = (new false t w).determined (t + 1) := by
        show (new false t w).determined ((new false t w).turn_count_tie + 1) = _
        rw [htct]
      simp only [DeterminedScore.from_score]
      rw [if_neg h1, if_neg h2, if_neg h3]
      by_cases h5 : t = w - 1
      · have hfdt : (new false t w).fully_determined = true := by
          rw [hfd, eta_mk (new false t w), determined_arith, hd]
          simp only [Bool.or_eq_true, decide_eq_true_eq]
          rw [show (t + (w - 1) * 2048) / 2048 = w - 1 by omega]
          omega
        rw [if_pos hfdt, if_pos hfdt, hdd]
        rw [score_at_depth, if_neg (show ¬(w ≤ (new false t w).turn_count_tie) by omega),
          if_pos (show w ≥ (new false t w).turn_count_win by omega), hcpw]
        rfl
      · have hfdt : ¬((new false t w).fully_determined = true) := by
          rw [hfd, eta_mk (new false t w), determined_arith, hd]
          simp only [Bool.or_eq_true, decide_eq_true_eq]
          rw [show (t + (w - 1) * 2048) / 2048 = w - 1 by omega]
          omega
        rw [if_neg hfdt, if_neg hfdt]
    · have hd : (new true t w).data = 2147483648 + t + (w - 1) * 2048 := by
        rw [new_data, if_neg hw0]
        simp only [cond_true]
      have h1 : ¬(new true t w = Score.NO_INFO) := by
        intro he
        have h1b := congrArg Score.data he
        rw [hd, NO_INFO_data] at h1b
        omega
      have h2 : ¬((new true t w).is_guaranteed_tie = true) := by
        rw [eta_mk (new true t w), is_guaranteed_tie_arith, decide_eq_true_eq, hd]
        omega
      have h3 : ¬((new true t w).is_tie = true) := by
        rw [eta_mk (new true t w), is_tie_arith, decide_eq_true_eq, hd]
        omega
      have htct : (new true t w).turn_count_tie = t := by
        rw [eta_mk (new true t w), turn_count_tie_arith, hd]
        omega
      have htcw : (new true t w).turn_count_win = w := by
        rw [eta_mk (new true t w), turn_count_win_arith, hd]
        omega
      have hdd : (new true t w).determined_depth = w := by
        rw [eta_mk (new true t w), determined_depth_arith, hd]
        omega
      have hcpw : (new true t w).cur_player_wins = true := by
        rw [eta_mk (new true t w), cur_player_wins_arith, hd, decide_eq_true_eq]
        omega
      have hfd : (new true t w).fully_determined
          = (new true t w).determined (t + 1) := by
        show (new true t w).determined ((new true t w).turn_count_tie + 1) = _
        rw [htct]
      simp only [DeterminedScore.from_score]
      rw [if_neg h1, if_neg h2, if_neg h3]
      by_cases h5 : t = w - 1
      · have hfdt : (new true t w).fully_determined = true := by
          rw [hfd, eta_mk (new true t w), determined_arith, hd]
          simp only [Bool.or_eq_true, decide_eq_true_eq]
          rw [show (2147483648 + t + (w - 1) * 2048) / 2048 = 1048576 + (w - 1)
            by omega]
          omega
        rw [if_pos hfdt, if_pos hfdt, hdd]
        rw [score_at_depth, if_neg (show ¬(w ≤ (new true t w).turn_count_tie) by omega),
          if_pos (show w ≥ (new true t w).turn_count_win by omega), hcpw]
        rfl
      · have hfdt : ¬((new true t w).fully_determined = true) := by
          rw [hfd, eta_mk (new true t w), determined_arith, hd]
          simp only [Bool.or_eq_true, decide_eq_true_eq]
          rw [show (2147483648 + t + (w - 1) * 2048) / 2048 = 1048576 + (w - 1)
            by omega]
          omega
        rw [if_neg hfdt, if_neg hfdt]

/-- Witness for C9 at `tie 4` and at `new true 3 4` (i.e. `optimal_win 4`). -/
theorem from_score_matches_spec_witness :
    DeterminedScore.from_score (tie 4) = some (DeterminedScore.tie 4)
      ∧ (DeterminedScore.from_score (new true 3 4)
          = if (new true 3 4).fully_determined = true
            then some ⟨if true = true then ScoreValue.CurrentPlayerWins
                       else ScoreValue.OtherPlayerWins, 4⟩
            else none) :=
  ⟨from_score_matches_spec.2.2.1 4 (by decide) (by decide),
   from_score_matches_spec.2.2.2.1 true 3 4 (by decide) (by decide) (by decide)
     (by decide)⟩

end Score

end AbstractGame
